import Mathlib

/-!
# Verification of the performance-monitoring correlation engine

Shallow embedding of the monitors in this repository:

* `APIMon`    — `APICorrelationMonitor` (API-call log, LCP/INP correlation)
* `QueryMon`  — `TanStackQueryMonitor` (query-cache log, LCP/INP correlation,
                cache statistics)
* `ResMon`    — `ResourceTimingMonitor` (resource log, compression ratio,
                top-k selections)
* `LoafMon`   — `LoAFMonitor` (long-animation-frame log, total blocking time)
* `VitalsMon` — `WebVitalsMonitor` (web-vitals log, latest-metric lookup)
* `PerfMon`   — `PerformanceMonitor` (session orchestration, snapshot, clear)

JavaScript numbers are modelled as rationals (`ℚ`); `undefined`-able fields
become `Option`; JS `Map`s become association lists preserving insertion
order (as JS `Map` iteration does).  Fields that only exist for browser
plumbing (observers, callback registries, interception closures) have no
observable effect on the verified operations and are omitted; every field
read or written by an embedded operation is present.
-/

namespace PerfSpec

/-- JS truthiness fallback `x || d` for an optional number: `undefined` and
`0` both fall back to the default. -/
def jsOrQ (x : Option ℚ) (d : ℚ) : ℚ :=
  match x with
  | none => d
  | some v => if v = 0 then d else v

/-! ## API correlation monitor (`src/core/APICorrelationMonitor.ts`) -/

/-- `APICallMetric` from `monitoring.types`.  The two blocking booleans are
optional in the source but are always written by `recordAPICall`; an absent
boolean is falsy in every read, so they are embedded as `Bool`. -/
structure APICallMetric where
  url : String
  method : String
  startTime : ℚ
  duration : ℚ
  ttfb : ℚ
  status : Int
  size : ℚ
  blockedLCP : Bool
  blockedINP : Bool
deriving DecidableEq, Repr

/-- Argument of `recordAPICall`: an `APICallMetric` minus the two blocking
flags (`Omit<APICallMetric, 'blockedLCP' | 'blockedINP' | ...>`). -/
structure APICallData where
  url : String
  method : String
  startTime : ℚ
  duration : ℚ
  ttfb : ℚ
  status : Int
  size : ℚ
deriving DecidableEq, Repr

/-- Entry of the `pendingRequests` map. -/
structure PendingRequest where
  url : String
  method : String
  startTime : ℚ
deriving DecidableEq, Repr

/-- Mutable state of `APICorrelationMonitor`. -/
structure APIMon where
  apiCalls : List APICallMetric
  pendingRequests : List (String × PendingRequest)
  lcpTime : Option ℚ
  inpEvents : List ℚ
deriving DecidableEq, Repr

/-- Field state of a freshly constructed `APICorrelationMonitor`. -/
def APIMon.init : APIMon := ⟨[], [], none, []⟩

/-- `checkLCPBlocking`: the call overlaps the LCP instant strictly. -/
def APIMon.checkLCPBlocking (s : APIMon) (startTime duration : ℚ) : Bool :=
  match s.lcpTime with
  | none => false
  | some t => decide (startTime < t) && decide (startTime + duration > t)

/-- `checkINPBlocking`: the call overlaps some stored INP instant strictly. -/
def APIMon.checkINPBlocking (s : APIMon) (startTime duration : ℚ) : Bool :=
  s.inpEvents.any (fun t => decide (startTime < t) && decide (startTime + duration > t))

/-- `recordAPICall`: append the call, evaluating both blocking flags against
the instants known right now. -/
def APIMon.recordAPICall (s : APIMon) (d : APICallData) : APIMon :=
  { s with apiCalls := s.apiCalls ++
      [{ url := d.url, method := d.method, startTime := d.startTime,
         duration := d.duration, ttfb := d.ttfb, status := d.status, size := d.size,
         blockedLCP := s.checkLCPBlocking d.startTime d.duration,
         blockedINP := s.checkINPBlocking d.startTime d.duration }] }

/-- `correlateWithLCP`: upgrade the `blockedLCP` flag of every stored call
that is not yet flagged. -/
def APIMon.correlateWithLCP (s : APIMon) : APIMon :=
  match s.lcpTime with
  | none => s
  | some _ =>
    { s with apiCalls := s.apiCalls.map (fun c =>
        if c.blockedLCP then c
        else { c with blockedLCP := s.checkLCPBlocking c.startTime c.duration }) }

/-- `correlateWithINP`: upgrade the `blockedINP` flag of every stored call
that is not yet flagged. -/
def APIMon.correlateWithINP (s : APIMon) : APIMon :=
  { s with apiCalls := s.apiCalls.map (fun c =>
      if c.blockedINP then c
      else { c with blockedINP := s.checkINPBlocking c.startTime c.duration }) }

/-- `setLCPTime`: store the instant, then re-correlate the whole log. -/
def APIMon.setLCPTime (s : APIMon) (t : ℚ) : APIMon :=
  APIMon.correlateWithLCP { s with lcpTime := some t }

/-- JS `Map.set(t, true)` on a map used as a set: re-setting an existing key
keeps its position, a new key is appended. -/
def mapSetQ (l : List ℚ) (t : ℚ) : List ℚ :=
  if t ∈ l then l else l ++ [t]

/-- `recordINPEvent`: store the instant in the set, then re-correlate. -/
def APIMon.recordINPEvent (s : APIMon) (t : ℚ) : APIMon :=
  APIMon.correlateWithINP { s with inpEvents := mapSetQ s.inpEvents t }

/-- `getLCPBlockingCalls`. -/
def APIMon.getLCPBlockingCalls (s : APIMon) : List APICallMetric :=
  s.apiCalls.filter (fun c => c.blockedLCP)

/-- `getINPBlockingCalls`. -/
def APIMon.getINPBlockingCalls (s : APIMon) : List APICallMetric :=
  s.apiCalls.filter (fun c => c.blockedINP)

/-- `getAverageLatency`. -/
def APIMon.getAverageLatency (s : APIMon) : ℚ :=
  if s.apiCalls.length = 0 then 0
  else (s.apiCalls.foldl (fun sum c => sum + c.duration) 0) / s.apiCalls.length

/-- `clear`: empties the call log and the pending-request map; `lcpTime` and
`inpEvents` are not touched. -/
def APIMon.clear (s : APIMon) : APIMon :=
  { s with apiCalls := [], pendingRequests := [] }

/-! ## Stable descending sort

`[...xs].sort((a, b) => b.f - a.f)` in the source: ES2019 requires
`Array.prototype.sort` to be stable, and this comparator orders by the key
`f` descending, so the observable result is exactly a stable sort into
non-increasing key order.  `insertDesc` places an element after every
already-placed element with a key `≥` its own, which is precisely the
stable behaviour (already-placed elements come earlier in the log). -/

/-- Insert `a` into a non-increasing list, after all elements whose key is
`≥ key a`. -/
def insertDesc {α : Type} (key : α → ℚ) (a : α) : List α → List α
  | [] => [a]
  | b :: l => if key b ≤ key a then a :: b :: l else b :: insertDesc key a l

/-- Stable sort into non-increasing key order. -/
def sortByDesc {α : Type} (key : α → ℚ) : List α → List α
  | [] => []
  | a :: l => insertDesc key a (sortByDesc key l)

theorem insertDesc_perm {α : Type} (key : α → ℚ) (a : α) (l : List α) :
    List.Perm (insertDesc key a l) (a :: l) := by
  induction l with
  | nil => simp [insertDesc]
  | cons b l ih =>
    by_cases h : key b ≤ key a
    · simp [insertDesc, h]
    · simp only [insertDesc, if_neg h]
      exact (ih.cons b).trans (List.Perm.swap a b l)

theorem sortByDesc_perm {α : Type} (key : α → ℚ) (l : List α) :
    List.Perm (sortByDesc key l) l := by
  induction l with
  | nil => simp [sortByDesc]
  | cons a l ih => exact (insertDesc_perm key a _).trans (ih.cons a)

theorem insertDesc_pairwise {α : Type} (key : α → ℚ) (a : α) (l : List α)
    (h : l.Pairwise (fun x y => key y ≤ key x)) :
    (insertDesc key a l).Pairwise (fun x y => key y ≤ key x) := by
  induction l with
  | nil => simp [insertDesc]
  | cons b l ih =>
    rcases List.pairwise_cons.mp h with ⟨hb, hl⟩
    by_cases hba : key b ≤ key a
    · simp only [insertDesc, if_pos hba]
      refine List.pairwise_cons.mpr ⟨?_, h⟩
      intro x hx
      rcases List.mem_cons.mp hx with rfl | hx
      · exact hba
      · exact le_trans (hb x hx) hba
    · simp only [insertDesc, if_neg hba]
      refine List.pairwise_cons.mpr ⟨?_, ih hl⟩
      intro x hx
      rcases List.mem_cons.mp ((insertDesc_perm key a l).mem_iff.mp hx) with rfl | hx
      · exact le_of_lt (lt_of_not_le hba)
      · exact hb x hx

theorem sortByDesc_pairwise {α : Type} (key : α → ℚ) (l : List α) :
    (sortByDesc key l).Pairwise (fun x y => key y ≤ key x) := by
  induction l with
  | nil => simp [sortByDesc]
  | cons a l ih => exact insertDesc_pairwise key a _ ih

theorem insertDesc_filter_eq {α : Type} (key : α → ℚ) (a : α) (l : List α) (d : ℚ)
    (ha : key a = d) :
    (insertDesc key a l).filter (fun x => decide (key x = d)) =
      a :: l.filter (fun x => decide (key x = d)) := by
  have hpa : decide (key a = d) = true := decide_eq_true ha
  induction l with
  | nil =>
    rw [insertDesc, List.filter_cons]
    simp [hpa]
  | cons b l ih =>
    rw [insertDesc]
    by_cases hba : key b ≤ key a
    · rw [if_pos hba, List.filter_cons]
      simp [hpa]
    · have hbd : ¬ (key b = d) := fun hbd => hba (le_of_eq (hbd.trans ha.symm))
      have hpb : decide (key b = d) = false := decide_eq_false hbd
      rw [if_neg hba, List.filter_cons, List.filter_cons]
      simp only [hpb, Bool.false_eq_true, if_false, ih]

theorem insertDesc_filter_ne {α : Type} (key : α → ℚ) (a : α) (l : List α) (d : ℚ)
    (ha : ¬ (key a = d)) :
    (insertDesc key a l).filter (fun x => decide (key x = d)) =
      l.filter (fun x => decide (key x = d)) := by
  have hpa : decide (key a = d) = false := decide_eq_false ha
  induction l with
  | nil =>
    rw [insertDesc, List.filter_cons, List.filter_nil]
    simp [hpa]
  | cons b l ih =>
    rw [insertDesc]
    by_cases hba : key b ≤ key a
    · rw [if_pos hba, List.filter_cons, List.filter_cons]
      simp [hpa]
    · rw [if_neg hba, List.filter_cons, List.filter_cons, ih]

/-- Stability: inside each key class the sorted list keeps the original
(log) order. -/
theorem sortByDesc_filter {α : Type} (key : α → ℚ) (l : List α) (d : ℚ) :
    (sortByDesc key l).filter (fun x => decide (key x = d)) =
      l.filter (fun x => decide (key x = d)) := by
  induction l with
  | nil => simp [sortByDesc]
  | cons a l ih =>
    by_cases ha : key a = d
    · rw [sortByDesc, insertDesc_filter_eq key a _ d ha, ih]
      simp [List.filter, ha]
    · rw [sortByDesc, insertDesc_filter_ne key a _ d ha, ih]
      simp [List.filter, ha]

/-- `getSlowestCalls` (source default `count = 10`). -/
def APIMon.getSlowestCalls (s : APIMon) (count : ℕ) : List APICallMetric :=
  (sortByDesc (fun c => c.duration) s.apiCalls).take count

/-! ## TanStack Query monitor (`src/core/TanStackQueryMonitor.ts`) -/

inductive QueryStatus
  | pending
  | error
  | success
deriving DecidableEq, Repr

inductive FetchStatus
  | fetching
  | paused
  | idle
deriving DecidableEq, Repr

/-- `QueryCacheMetric` from `monitoring.types` (blocking booleans as in
`APICallMetric`; they are falsy when absent, so `Bool` with `false`). -/
structure QueryCacheMetric where
  queryKey : String
  status : QueryStatus
  fetchStatus : FetchStatus
  dataUpdatedAt : ℚ
  errorUpdatedAt : ℚ
  fetchDuration : Option ℚ
  cacheTime : ℚ
  staleTime : ℚ
  blockedLCP : Bool
  blockedINP : Bool
deriving DecidableEq, Repr

/-- Value type of the `queryExecutions` map. -/
structure ExecStat where
  count : ℕ
  totalDuration : ℚ
deriving DecidableEq, Repr

/-- Mutable state of `TanStackQueryMonitor`; `queryExecutions` is a JS `Map`
keyed by serialized query key, embedded as an insertion-ordered
association list. -/
structure QueryMon where
  queryMetrics : List QueryCacheMetric
  queryExecutions : List (String × ExecStat)
  lcpTime : Option ℚ
  inpEvents : List ℚ
deriving DecidableEq, Repr

/-- Field state of a freshly constructed `TanStackQueryMonitor`. -/
def QueryMon.init : QueryMon := ⟨[], [], none, []⟩

/-- `Map.get` on the executions map (first matching key). -/
def execGet (l : List (String × ExecStat)) (k : String) : Option ExecStat :=
  (l.find? (fun p => p.1 = k)).map (fun p => p.2)

/-- `Map.set` on the executions map: overwrite in place, or append. -/
def execSet (l : List (String × ExecStat)) (k : String) (v : ExecStat) :
    List (String × ExecStat) :=
  match l with
  | [] => [(k, v)]
  | p :: rest => if p.1 = k then (k, v) :: rest else p :: execSet rest k v

/-- The part of a raw cache event the handler reads: `query.queryKey` after
`serializeQueryKey`, the relevant `query.state` fields, the optional
`_fetchStartTime` stamp, and the retention/staleness windows.  `now` is the
`Date.now()` value at handling time (an environment input). -/
structure QueryData where
  queryKey : String
  status : QueryStatus
  fetchStatus : FetchStatus
  dataUpdatedAt : ℚ
  errorUpdatedAt : ℚ
  fetchStartTime : Option ℚ
  cacheTime : Option ℚ
  staleTime : Option ℚ
deriving DecidableEq, Repr

/-- A cache-subscription event: `{ type, query }` plus the handling
instant. -/
structure QueryEvent where
  type : String
  query : Option QueryData
  now : ℚ
deriving DecidableEq, Repr

/-- `checkLCPBlocking` (query monitor). -/
def QueryMon.checkLCPBlocking (s : QueryMon) (startTime duration : ℚ) : Bool :=
  match s.lcpTime with
  | none => false
  | some t => decide (startTime < t) && decide (startTime + duration > t)

/-- `checkINPBlocking` (query monitor). -/
def QueryMon.checkINPBlocking (s : QueryMon) (startTime duration : ℚ) : Bool :=
  s.inpEvents.any (fun t => decide (startTime < t) && decide (startTime + duration > t))

/-- `handleQueryEvent`: only `'updated'` events with a query are tracked;
increments the per-key execution counter and appends a metric whose
blocking flags are evaluated against the instants known right now. -/
def QueryMon.handleQueryEvent (s : QueryMon) (e : QueryEvent) : QueryMon :=
  if e.type ≠ "updated" then s else
  match e.query with
  | none => s
  | some q =>
    let startTime : ℚ := jsOrQ q.fetchStartTime e.now
    let fetchDuration : Option ℚ :=
      if q.dataUpdatedAt > 0 then some (e.now - startTime) else none
    let existing : ExecStat := (execGet s.queryExecutions q.queryKey).getD ⟨0, 0⟩
    let execs := execSet s.queryExecutions q.queryKey
      ⟨existing.count + 1, existing.totalDuration + fetchDuration.getD 0⟩
    let metric : QueryCacheMetric :=
      { queryKey := q.queryKey, status := q.status, fetchStatus := q.fetchStatus,
        dataUpdatedAt := q.dataUpdatedAt, errorUpdatedAt := q.errorUpdatedAt,
        fetchDuration := fetchDuration,
        cacheTime := jsOrQ q.cacheTime 300000,
        staleTime := jsOrQ q.staleTime 0,
        blockedLCP := s.checkLCPBlocking startTime (fetchDuration.getD 0),
        blockedINP := s.checkINPBlocking startTime (fetchDuration.getD 0) }
    { s with queryMetrics := s.queryMetrics ++ [metric], queryExecutions := execs }

/-- JS truthiness of `metric.fetchDuration` (`undefined` and `0` falsy). -/
def fetchDurationTruthy (m : QueryCacheMetric) : Bool :=
  match m.fetchDuration with
  | none => false
  | some d => decide (d ≠ 0)

/-- `correlateWithLCP` (query monitor): the re-check uses the interval
`(dataUpdatedAt − fetchDuration, dataUpdatedAt)`, not the creation-time
start instant. -/
def QueryMon.correlateWithLCP (s : QueryMon) : QueryMon :=
  match s.lcpTime with
  | none => s
  | some _ =>
    { s with queryMetrics := s.queryMetrics.map (fun m =>
        if fetchDurationTruthy m && !m.blockedLCP then
          { m with blockedLCP := s.checkLCPBlocking (m.dataUpdatedAt - m.fetchDuration.getD 0) (m.fetchDuration.getD 0) }
        else m) }

/-- `correlateWithINP` (query monitor). -/
def QueryMon.correlateWithINP (s : QueryMon) : QueryMon :=
  { s with queryMetrics := s.queryMetrics.map (fun m =>
      if fetchDurationTruthy m && !m.blockedINP then
        { m with blockedINP := s.checkINPBlocking (m.dataUpdatedAt - m.fetchDuration.getD 0) (m.fetchDuration.getD 0) }
      else m) }

/-- `setLCPTime` (query monitor). -/
def QueryMon.setLCPTime (s : QueryMon) (t : ℚ) : QueryMon :=
  QueryMon.correlateWithLCP { s with lcpTime := some t }

/-- `recordINPEvent` (query monitor). -/
def QueryMon.recordINPEvent (s : QueryMon) (t : ℚ) : QueryMon :=
  QueryMon.correlateWithINP { s with inpEvents := mapSetQ s.inpEvents t }

/-- `snapshotCurrentQueries` run by `initialize`: one metric per query
already in the cache, no duration, no blocking flags (absent = falsy). -/
def QueryMon.snapshotCurrentQueries (s : QueryMon) (queries : List QueryData) : QueryMon :=
  { s with queryMetrics := s.queryMetrics ++ queries.map (fun q =>
      { queryKey := q.queryKey, status := q.status, fetchStatus := q.fetchStatus,
        dataUpdatedAt := q.dataUpdatedAt, errorUpdatedAt := q.errorUpdatedAt,
        fetchDuration := none,
        cacheTime := jsOrQ q.cacheTime 300000,
        staleTime := jsOrQ q.staleTime 0,
        blockedLCP := false, blockedINP := false }) }

/-- `clear` (query monitor): metrics and execution counters only; the
correlation instants are not touched. -/
def QueryMon.clear (s : QueryMon) : QueryMon :=
  { s with queryMetrics := [], queryExecutions := [] }

/-- `QueryCacheStats` from `monitoring.types`. -/
structure QueryCacheStats where
  totalQueries : ℕ
  activeQueries : ℕ
  staleQueries : ℕ
  erroredQueries : ℕ
  averageFetchDuration : ℚ
  cacheHitRate : ℚ
  slowestQueries : List QueryCacheMetric
  mostFrequentQueries : List (String × ℕ)
deriving DecidableEq, Repr

/-- `totalExecutions` as computed inside `getQueryCacheStats`: the sum of
the per-key `count` fields of the executions map. -/
def QueryMon.totalExecutions (s : QueryMon) : ℕ :=
  s.queryExecutions.foldl (fun sum p => sum + p.2.count) 0

/-- `getQueryCacheStats` (`now` is the `Date.now()` read for staleness). -/
def QueryMon.getQueryCacheStats (s : QueryMon) (now : ℚ) : QueryCacheStats :=
  let allQueries := s.queryMetrics
  let totalQueries := allQueries.length
  let activeQueries := (allQueries.filter (fun q => q.fetchStatus = FetchStatus.fetching)).length
  let staleQueries := (allQueries.filter (fun q =>
      decide (q.dataUpdatedAt > 0) && decide (now - q.dataUpdatedAt > q.staleTime))).length
  let erroredQueries := (allQueries.filter (fun q => q.status = QueryStatus.error)).length
  let queriesWithDuration := allQueries.filter (fun q => q.fetchDuration.isSome)
  let averageFetchDuration : ℚ :=
    if queriesWithDuration.length > 0 then
      (queriesWithDuration.foldl (fun sum q => sum + q.fetchDuration.getD 0) 0) /
        queriesWithDuration.length
    else 0
  let totalExec := s.totalExecutions
  let cacheHitRate : ℚ :=
    if totalExec > 0 then ((totalExec : ℚ) - (totalQueries : ℚ)) / (totalExec : ℚ) else 0
  let slowestQueries :=
    (sortByDesc (fun q => q.fetchDuration.getD 0)
      (allQueries.filter (fun q => q.fetchDuration.isSome))).take 10
  let mostFrequentQueries :=
    (sortByDesc (fun p => (p.2 : ℚ))
      (s.queryExecutions.map (fun p => (p.1, p.2.count)))).take 10
  { totalQueries := totalQueries, activeQueries := activeQueries,
    staleQueries := staleQueries, erroredQueries := erroredQueries,
    averageFetchDuration := averageFetchDuration, cacheHitRate := cacheHitRate,
    slowestQueries := slowestQueries, mostFrequentQueries := mostFrequentQueries }

/-! ## Resource timing monitor (`src/core/ResourceTimingMonitor.ts`) -/

/-- `str.includes(sub)`. -/
def strIncludes (s sub : String) : Bool :=
  s.toList.tails.any (fun t => sub.toList.isPrefixOf t)

/-- `str.match(/\.(woff2?|ttf|otf|eot)$/)` is truthy. -/
def matchesFontExt (s : String) : Bool :=
  [".woff", ".woff2", ".ttf", ".otf", ".eot"].any
    (fun suf => suf.toList.isSuffixOf s.toList)

inductive RenderBlockingStatus
  | blocking
  | nonBlocking
deriving DecidableEq, Repr

/-- `ResourceTimingEntry` from `monitoring.types`. -/
structure ResourceTimingEntry where
  name : String
  entryType : String
  startTime : ℚ
  duration : ℚ
  initiatorType : String
  nextHopProtocol : String
  renderBlockingStatus : RenderBlockingStatus
  fetchStart : ℚ
  domainLookupStart : ℚ
  domainLookupEnd : ℚ
  connectStart : ℚ
  connectEnd : ℚ
  secureConnectionStart : ℚ
  requestStart : ℚ
  responseStart : ℚ
  responseEnd : ℚ
  transferSize : ℚ
  encodedBodySize : ℚ
  decodedBodySize : ℚ
  compressionRatio : Option ℚ
deriving DecidableEq, Repr

/-- A platform `PerformanceResourceTiming` entry as read by the monitor.
`renderBlockingStatusRaw` is `some v` when the browser exposes the
`renderBlockingStatus` property with value `v`, `none` otherwise. -/
structure RawResourceEntry where
  name : String
  entryType : String
  startTime : ℚ
  duration : ℚ
  initiatorType : String
  nextHopProtocol : String
  renderBlockingStatusRaw : Option String
  fetchStart : ℚ
  domainLookupStart : ℚ
  domainLookupEnd : ℚ
  connectStart : ℚ
  connectEnd : ℚ
  secureConnectionStart : ℚ
  requestStart : ℚ
  responseStart : ℚ
  responseEnd : ℚ
  transferSize : ℚ
  encodedBodySize : ℚ
  decodedBodySize : ℚ
deriving DecidableEq, Repr

/-- `getRenderBlockingStatus`: authoritative property when present,
heuristic fallback otherwise. -/
def getRenderBlockingStatus (entry : RawResourceEntry) : RenderBlockingStatus :=
  match entry.renderBlockingStatusRaw with
  | some v => if v = "blocking" then .blocking else .nonBlocking
  | none =>
    let isStylesheet := entry.initiatorType = "link" && strIncludes entry.name ".css"
    let isBlockingScript := entry.initiatorType = "script" &&
      !(strIncludes entry.name "async") && !(strIncludes entry.name "defer")
    let isFont := entry.initiatorType = "css" || matchesFontExt entry.name
    let isEarlyLoad := decide (entry.startTime < 1000)
    if (isStylesheet || isBlockingScript || isFont) && isEarlyLoad then .blocking
    else .nonBlocking

/-- `convertToResourceTiming`: the compression ratio is
`decoded / encoded`, defined only when the encoded size is positive. -/
def convertToResourceTiming (entry : RawResourceEntry) : ResourceTimingEntry :=
  let compressionRatio : Option ℚ :=
    if entry.encodedBodySize > 0 then
      some (entry.decodedBodySize / entry.encodedBodySize)
    else none
  { name := entry.name, entryType := entry.entryType,
    startTime := entry.startTime, duration := entry.duration,
    initiatorType := entry.initiatorType, nextHopProtocol := entry.nextHopProtocol,
    renderBlockingStatus := getRenderBlockingStatus entry,
    fetchStart := entry.fetchStart,
    domainLookupStart := entry.domainLookupStart,
    domainLookupEnd := entry.domainLookupEnd,
    connectStart := entry.connectStart, connectEnd := entry.connectEnd,
    secureConnectionStart := entry.secureConnectionStart,
    requestStart := entry.requestStart, responseStart := entry.responseStart,
    responseEnd := entry.responseEnd,
    transferSize := entry.transferSize,
    encodedBodySize := entry.encodedBodySize,
    decodedBodySize := entry.decodedBodySize,
    compressionRatio := compressionRatio }

/-- Mutable state of `ResourceTimingMonitor`. -/
structure ResMon where
  resources : List ResourceTimingEntry
deriving DecidableEq, Repr

def ResMon.init : ResMon := ⟨[]⟩

/-- `handleResourceEntry`. -/
def ResMon.handleResourceEntry (s : ResMon) (entry : RawResourceEntry) : ResMon :=
  ⟨s.resources ++ [convertToResourceTiming entry]⟩

/-- `getBlockingResources`. -/
def ResMon.getBlockingResources (s : ResMon) : List ResourceTimingEntry :=
  s.resources.filter (fun r => r.renderBlockingStatus = RenderBlockingStatus.blocking)

/-- `getLargestResources` (source default `count = 10`). -/
def ResMon.getLargestResources (s : ResMon) (count : ℕ) : List ResourceTimingEntry :=
  (sortByDesc (fun r => r.transferSize) s.resources).take count

/-- `getSlowestResources` (source default `count = 10`). -/
def ResMon.getSlowestResources (s : ResMon) (count : ℕ) : List ResourceTimingEntry :=
  (sortByDesc (fun r => r.duration) s.resources).take count

/-- `getTotalTransferSize`. -/
def ResMon.getTotalTransferSize (s : ResMon) : ℚ :=
  s.resources.foldl (fun sum r => sum + r.transferSize) 0

/-- The aggregator's ratio filter `(r): r is number => r !== undefined && r > 0`
on an optional ratio. -/
def keepPositiveRatio (o : Option ℚ) : Option ℚ :=
  match o with
  | some r => if r > 0 then some r else none
  | none => none

/-- `getAverageCompressionRatio`: mean of the ratios that are defined
**and strictly positive**; `0` when no ratio qualifies. -/
def ResMon.getAverageCompressionRatio (s : ResMon) : ℚ :=
  let ratios := (s.resources.map (fun r => r.compressionRatio)).filterMap keepPositiveRatio
  if ratios.length = 0 then 0
  else (ratios.foldl (fun sum r => sum + r) 0) / ratios.length

def ResMon.clear (_s : ResMon) : ResMon := ⟨[]⟩

/-! ## Long-animation-frames monitor (`src/core/LoAFMonitor.ts`) -/

/-- `ScriptAttribution` from `monitoring.types`. -/
structure ScriptAttribution where
  invoker : String
  invokerType : String
  sourceURL : String
  sourceFunctionName : String
  sourceCharPosition : ℚ
  executionStart : ℚ
  duration : ℚ
  forcedStyleAndLayoutDuration : ℚ
deriving DecidableEq, Repr

/-- `LongAnimationFrameEntry` from `monitoring.types` (`entryType` is the
fixed string `'long-animation-frame'`). -/
structure LongAnimationFrameEntry where
  name : String
  startTime : ℚ
  duration : ℚ
  renderStart : ℚ
  styleAndLayoutStart : ℚ
  firstUIEventTimestamp : ℚ
  blockingDuration : ℚ
  scripts : List ScriptAttribution
deriving DecidableEq, Repr

/-- Mutable state of `LoAFMonitor`. -/
structure LoafMon where
  frames : List LongAnimationFrameEntry
deriving DecidableEq, Repr

def LoafMon.init : LoafMon := ⟨[]⟩

/-- A coarse `longtask` `PerformanceEntry` (fallback ingestion path). -/
structure RawLongTaskEntry where
  name : String
  startTime : ℚ
  duration : ℚ
deriving DecidableEq, Repr

/-- `handleLongTaskEntry`: the fallback path derives the blocking duration
as `max(0, duration − 50)` and synthesizes a single script entry. -/
def LoafMon.handleLongTaskEntry (s : LoafMon) (entry : RawLongTaskEntry) : LoafMon :=
  ⟨s.frames ++
    [{ name := entry.name, startTime := entry.startTime, duration := entry.duration,
       renderStart := 0, styleAndLayoutStart := 0, firstUIEventTimestamp := 0,
       blockingDuration := max 0 (entry.duration - 50),
       scripts := [{ invoker := "unknown", invokerType := "unknown",
                     sourceURL := "unknown (longtask fallback)",
                     sourceFunctionName := "unknown", sourceCharPosition := 0,
                     executionStart := entry.startTime, duration := entry.duration,
                     forcedStyleAndLayoutDuration := 0 }] }]⟩

/-- `getTotalBlockingTime`: recomputed as `Σ max(0, duration − 50)` over
all frames, ignoring each frame's stored `blockingDuration`. -/
def LoafMon.getTotalBlockingTime (s : LoafMon) : ℚ :=
  s.frames.foldl (fun sum frame => sum + max 0 (frame.duration - 50)) 0

def LoafMon.clear (_s : LoafMon) : LoafMon := ⟨[]⟩

/-! ## Web-vitals monitor (`src/core/WebVitalsMonitor.ts`) -/

inductive MetricName
  | LCP
  | CLS
  | INP
  | FCP
  | TTFB
deriving DecidableEq, Repr

inductive Rating
  | good
  | needsImprovement
  | poor
deriving DecidableEq, Repr

/-- `LCPAttribution` (fields used by the embedding's consumers). -/
structure LCPAttribution where
  element : Option String
  url : Option String
  timeToFirstByte : ℚ
  resourceLoadDelay : ℚ
  resourceLoadDuration : ℚ
  elementRenderDelay : ℚ
deriving DecidableEq, Repr

structure CLSAttribution where
  largestShiftTarget : Option String
  largestShiftValue : ℚ
  largestShiftTime : ℚ
deriving DecidableEq, Repr

structure INPAttribution where
  interactionTarget : Option String
  inputDelay : Option ℚ
  processingDuration : Option ℚ
  presentationDelay : Option ℚ
deriving DecidableEq, Repr

/-- The metric-dependent attribution union. -/
inductive Attribution
  | lcp (a : LCPAttribution)
  | cls (a : CLSAttribution)
  | inp (a : INPAttribution)
deriving DecidableEq, Repr

/-- `(attribution as any).element`: only the LCP attribution carries an
`element` property; on the others the read yields `undefined`. -/
def Attribution.element : Attribution → Option String
  | .lcp a => a.element
  | .cls _ => none
  | .inp _ => none

/-- `EnhancedWebVitalsMetric` from `monitoring.types`. -/
structure EnhancedWebVitalsMetric where
  name : MetricName
  value : ℚ
  rating : Rating
  delta : ℚ
  id : String
  timestamp : ℚ
  url : String
  userAgent : String
  attribution : Option Attribution
deriving DecidableEq, Repr

/-- Mutable state of `WebVitalsMonitor`. -/
structure VitalsMon where
  metrics : List EnhancedWebVitalsMetric
deriving DecidableEq, Repr

def VitalsMon.init : VitalsMon := ⟨[]⟩

/-- `storeMetric`. -/
def VitalsMon.storeMetric (s : VitalsMon) (m : EnhancedWebVitalsMetric) : VitalsMon :=
  ⟨s.metrics ++ [m]⟩

/-- `getLatestMetric`: last-appended revision of the named metric, `null`
when none exists. -/
def VitalsMon.getLatestMetric (s : VitalsMon) (name : MetricName) :
    Option EnhancedWebVitalsMetric :=
  (s.metrics.filter (fun m => m.name = name)).getLast?

def VitalsMon.clear (_s : VitalsMon) : VitalsMon := ⟨[]⟩

/-! ## Performance monitor orchestration (`src/index.ts`) -/

inductive Framework
  | react
  | vue
  | other
deriving DecidableEq, Repr

/-- `HydrationMetric` from `monitoring.types`. -/
structure HydrationMetric where
  startTime : ℚ
  endTime : ℚ
  duration : ℚ
  componentsHydrated : ℕ
  framework : Framework
  lcpBeforeHydration : Option ℚ
  lcpAfterHydration : Option ℚ
  lcpElement : Option String
deriving DecidableEq, Repr

/-- `NavigationMetric` from `monitoring.types`. -/
structure NavigationMetric where
  navigationType : String
  domainLookupStart : ℚ
  domainLookupEnd : ℚ
  connectStart : ℚ
  connectEnd : ℚ
  requestStart : ℚ
  responseStart : ℚ
  responseEnd : ℚ
  domInteractive : ℚ
  domContentLoadedEventStart : ℚ
  domContentLoadedEventEnd : ℚ
  domComplete : ℚ
  loadEventStart : ℚ
  loadEventEnd : ℚ
  dnsTime : ℚ
  tcpTime : ℚ
  ttfb : ℚ
  downloadTime : ℚ
  domProcessingTime : ℚ
  pageLoadTime : ℚ
deriving DecidableEq, Repr

/-- A platform `PerformanceNavigationTiming` entry. -/
structure RawNavTiming where
  type : String
  fetchStart : ℚ
  domainLookupStart : ℚ
  domainLookupEnd : ℚ
  connectStart : ℚ
  connectEnd : ℚ
  requestStart : ℚ
  responseStart : ℚ
  responseEnd : ℚ
  domInteractive : ℚ
  domContentLoadedEventStart : ℚ
  domContentLoadedEventEnd : ℚ
  domComplete : ℚ
  loadEventStart : ℚ
  loadEventEnd : ℚ
deriving DecidableEq, Repr

/-- `getNavigationMetric`: `null` when the platform exposes no navigation
entry, otherwise a copy plus derived durations. -/
def getNavigationMetric (nav : Option RawNavTiming) : Option NavigationMetric :=
  nav.map (fun n =>
    { navigationType := n.type,
      domainLookupStart := n.domainLookupStart, domainLookupEnd := n.domainLookupEnd,
      connectStart := n.connectStart, connectEnd := n.connectEnd,
      requestStart := n.requestStart, responseStart := n.responseStart,
      responseEnd := n.responseEnd, domInteractive := n.domInteractive,
      domContentLoadedEventStart := n.domContentLoadedEventStart,
      domContentLoadedEventEnd := n.domContentLoadedEventEnd,
      domComplete := n.domComplete, loadEventStart := n.loadEventStart,
      loadEventEnd := n.loadEventEnd,
      dnsTime := n.domainLookupEnd - n.domainLookupStart,
      tcpTime := n.connectEnd - n.connectStart,
      ttfb := n.responseStart - n.requestStart,
      downloadTime := n.responseEnd - n.responseStart,
      domProcessingTime := n.domComplete - n.domInteractive,
      pageLoadTime := n.loadEventEnd - n.fetchStart })

/-- `PerformanceSummary` from `monitoring.types`. -/
structure PerformanceSummary where
  totalResources : ℕ
  blockingResources : ℕ
  totalTransferSize : ℚ
  averageCompressionRatio : ℚ
  apiCallCount : ℕ
  averageApiLatency : ℚ
  longFrameCount : ℕ
  totalBlockingTime : ℚ
  queryCount : Option ℕ
  queryCacheHitRate : Option ℚ
  averageQueryDuration : Option ℚ
deriving DecidableEq, Repr

/-- `PerformanceSession` from `monitoring.types`. -/
structure PerformanceSession where
  sessionId : String
  url : String
  timestamp : ℚ
  userAgent : String
  framework : Framework
  webVitals : List EnhancedWebVitalsMetric
  navigation : Option NavigationMetric
  hydration : Option HydrationMetric
  resources : List ResourceTimingEntry
  longFrames : List LongAnimationFrameEntry
  apiCalls : List APICallMetric
  queryCache : Option QueryCacheStats
  summary : PerformanceSummary
deriving DecidableEq, Repr

/-- Mutable state of `PerformanceMonitor`: the session identity fixed at
construction plus the five child monitors and the hydration markers. -/
structure PerfMon where
  sessionId : String
  sessionStartTime : ℚ
  framework : Framework
  vitals : VitalsMon
  res : ResMon
  loaf : LoafMon
  api : APIMon
  query : QueryMon
  hydrationStartTime : Option ℚ
  hydrationMetric : Option HydrationMetric
  queryClientInitialized : Bool
deriving DecidableEq, Repr

/-- The `PerformanceMonitor` constructor: `generateSessionId()` and
`Date.now()` are environment inputs, passed in as `sessionId` and `now`. -/
def PerfMon.mk' (framework : Framework) (sessionId : String) (now : ℚ) : PerfMon :=
  { sessionId := sessionId, sessionStartTime := now, framework := framework,
    vitals := VitalsMon.init, res := ResMon.init, loaf := LoafMon.init,
    api := APIMon.init, query := QueryMon.init,
    hydrationStartTime := none, hydrationMetric := none,
    queryClientInitialized := false }

/-- `initializeQueryClient`: a no-op when already initialized; otherwise
snapshots the cache's current queries and flips the flag. -/
def PerfMon.initializeQueryClient (m : PerfMon) (currentQueries : List QueryData) : PerfMon :=
  if m.queryClientInitialized then m
  else { m with query := m.query.snapshotCurrentQueries currentQueries,
                queryClientInitialized := true }

/-- `markHydrationStart` (`now` is `performance.now()`). -/
def PerfMon.markHydrationStart (m : PerfMon) (now : ℚ) : PerfMon :=
  { m with hydrationStartTime := some now }

/-- `markHydrationEnd`: without a preceding start marker it only logs a
diagnostic and returns; otherwise it builds the hydration record, reading
the latest LCP revision for before/after values. -/
def PerfMon.markHydrationEnd (m : PerfMon) (componentCount : Option ℕ) (now : ℚ) : PerfMon :=
  match m.hydrationStartTime with
  | none => m
  | some st =>
    let endTime := now
    let duration := endTime - st
    let lcpMetric := m.vitals.getLatestMetric MetricName.LCP
    let lcpBefore : Option ℚ :=
      match lcpMetric with
      | some v => if v.timestamp < endTime then some v.value else none
      | none => none
    let lcpAfter : Option ℚ :=
      match lcpMetric with
      | some v => if v.timestamp ≥ endTime then some v.value else none
      | none => none
    let hyd : HydrationMetric :=
      { startTime := st, endTime := endTime, duration := duration,
        componentsHydrated := componentCount.getD 0,
        framework := m.framework,
        lcpBeforeHydration := lcpBefore,
        lcpAfterHydration := lcpAfter,
        lcpElement := lcpMetric.bind (fun v => v.attribution.bind Attribution.element) }
    { m with hydrationMetric := some hyd }

/-- Environment read by `getPerformanceSession`: location, user agent, the
platform navigation entry and the `Date.now()` used for staleness. -/
structure SessionEnv where
  url : String
  userAgent : String
  navigation : Option RawNavTiming
  now : ℚ
deriving DecidableEq, Repr

/-- `getPerformanceSession`: the full snapshot, with the summary recomputed
from the current log state. -/
def PerfMon.getPerformanceSession (m : PerfMon) (env : SessionEnv) : PerformanceSession :=
  let webVitals := m.vitals.metrics
  let resources := m.res.resources
  let longFrames := m.loaf.frames
  let apiCalls := m.api.apiCalls
  let navigation := getNavigationMetric env.navigation
  let queryCache : Option QueryCacheStats :=
    if m.queryClientInitialized then some (m.query.getQueryCacheStats env.now) else none
  let summary : PerformanceSummary :=
    { totalResources := resources.length,
      blockingResources := m.res.getBlockingResources.length,
      totalTransferSize := m.res.getTotalTransferSize,
      averageCompressionRatio := m.res.getAverageCompressionRatio,
      apiCallCount := apiCalls.length,
      averageApiLatency := m.api.getAverageLatency,
      longFrameCount := longFrames.length,
      totalBlockingTime := m.loaf.getTotalBlockingTime,
      queryCount := queryCache.map (fun q => q.totalQueries),
      queryCacheHitRate := queryCache.map (fun q => q.cacheHitRate),
      averageQueryDuration := queryCache.map (fun q => q.averageFetchDuration) }
  { sessionId := m.sessionId, url := env.url, timestamp := m.sessionStartTime,
    userAgent := env.userAgent, framework := m.framework,
    webVitals := webVitals, navigation := navigation,
    hydration := m.hydrationMetric, resources := resources,
    longFrames := longFrames, apiCalls := apiCalls,
    queryCache := queryCache, summary := summary }

/-- `PerformanceMonitor.clear`: clears every child log (the query monitor
only when a query client was initialized) and drops the hydration state. -/
def PerfMon.clear (m : PerfMon) : PerfMon :=
  { m with vitals := m.vitals.clear, res := m.res.clear, loaf := m.loaf.clear,
           api := m.api.clear,
           query := if m.queryClientInitialized then m.query.clear else m.query,
           hydrationMetric := none, hydrationStartTime := none }

/-! ## Interleavings of record insertions and instant reports

The externally triggered entry points of each correlation monitor, so that
properties can be stated over every interleaving of insertions and instant
reports. -/

/-- An externally triggered operation on `APICorrelationMonitor`. -/
inductive APIOp
  | record (d : APICallData)
  | setLCP (t : ℚ)
  | recordINP (t : ℚ)
deriving DecidableEq, Repr

def APIMon.step (s : APIMon) : APIOp → APIMon
  | .record d => s.recordAPICall d
  | .setLCP t => s.setLCPTime t
  | .recordINP t => s.recordINPEvent t

def APIMon.run (s : APIMon) (ops : List APIOp) : APIMon :=
  ops.foldl APIMon.step s

/-- An externally triggered operation on `TanStackQueryMonitor`. -/
inductive QueryOp
  | event (e : QueryEvent)
  | setLCP (t : ℚ)
  | recordINP (t : ℚ)
deriving DecidableEq, Repr

def QueryMon.step (s : QueryMon) : QueryOp → QueryMon
  | .event e => s.handleQueryEvent e
  | .setLCP t => s.setLCPTime t
  | .recordINP t => s.recordINPEvent t

def QueryMon.run (s : QueryMon) (ops : List QueryOp) : QueryMon :=
  ops.foldl QueryMon.step s

/-- Eventual-correctness predicate for the API-call log: every stored call
whose interval `(startTime, startTime + duration)` strictly contains a
known instant carries the corresponding flag. -/
def APIMon.flagsCorrect (s : APIMon) : Prop :=
  ∀ c ∈ s.apiCalls,
    (∀ t : ℚ, s.lcpTime = some t → c.startTime < t → t < c.startTime + c.duration →
      c.blockedLCP = true) ∧
    (∀ t ∈ s.inpEvents, c.startTime < t → t < c.startTime + c.duration →
      c.blockedINP = true)

/-- The interval a stored query-cache record carries: start =
`dataUpdatedAt − fetchDuration` (empty when no duration is stored). -/
def QueryCacheMetric.intervalStart (m : QueryCacheMetric) : ℚ :=
  m.dataUpdatedAt - m.fetchDuration.getD 0

/-- Eventual-correctness predicate for the query-cache log, with the
interval `(dataUpdatedAt − fetchDuration, dataUpdatedAt)`. -/
def QueryMon.flagsCorrect (s : QueryMon) : Prop :=
  ∀ m ∈ s.queryMetrics,
    (∀ t : ℚ, s.lcpTime = some t → m.intervalStart < t → t < m.dataUpdatedAt →
      m.blockedLCP = true) ∧
    (∀ t ∈ s.inpEvents, m.intervalStart < t → t < m.dataUpdatedAt →
      m.blockedINP = true)

/-- A query event is handled at the instant its record's `dataUpdatedAt`
reports (whenever a duration will be stored at all): under this condition
the creation-time overlap check and the correlation-pass overlap check
agree on the record's interval. -/
def QueryOp.consistent : QueryOp → Prop
  | .event e =>
    e.type = "updated" →
      ∀ q, e.query = some q → 0 < q.dataUpdatedAt → e.now = q.dataUpdatedAt
  | _ => True

/-! ### Preservation of the eventual-correctness invariant -/

theorem APIMon.checkLCPBlocking_of_overlap_api (s : APIMon) (a b t : ℚ)
    (hl : s.lcpTime = some t) (h1 : a < t) (h2 : t < a + b) :
    s.checkLCPBlocking a b = true := by
  simp only [APIMon.checkLCPBlocking, hl]
  simp [h1, h2]

theorem APIMon.checkINPBlocking_of_overlap_api (s : APIMon) (a b t : ℚ)
    (ht : t ∈ s.inpEvents) (h1 : a < t) (h2 : t < a + b) :
    s.checkINPBlocking a b = true :=
  List.any_eq_true.mpr ⟨t, ht, by simp [h1, h2]⟩

theorem APIMon.step_flagsCorrect_api (s : APIMon) (op : APIOp)
    (h : s.flagsCorrect) : (s.step op).flagsCorrect := by
  cases op with
  | record d =>
    intro c hc
    simp only [APIMon.step, APIMon.recordAPICall] at hc
    rcases List.mem_append.mp hc with hmem | hmem
    · have := h c hmem
      exact ⟨this.1, this.2⟩
    · rcases List.mem_singleton.mp hmem with rfl
      refine ⟨?_, ?_⟩
      · intro t hl h1 h2
        exact s.checkLCPBlocking_of_overlap_api d.startTime d.duration t hl h1 h2
      · intro t ht h1 h2
        exact s.checkINPBlocking_of_overlap_api d.startTime d.duration t ht h1 h2
  | setLCP t0 =>
    intro c hc
    simp only [APIMon.step, APIMon.setLCPTime, APIMon.correlateWithLCP] at hc ⊢
    rcases List.mem_map.mp hc with ⟨c0, hc0, rfl⟩
    by_cases hb : c0.blockedLCP
    · refine ⟨?_, ?_⟩
      · intro t hl h1 h2
        simp [hb]
      · intro t ht h1 h2
        simp only [hb, if_pos]
        exact (h c0 hc0).2 t ht (by simpa [hb] using h1) (by simpa [hb] using h2)
    · refine ⟨?_, ?_⟩
      · intro t hl h1 h2
        rcases Option.some.inj hl with rfl
        simp only [hb, if_neg, Bool.false_eq_true, if_false]
        exact APIMon.checkLCPBlocking_of_overlap_api _ _ _ t0 rfl
          (by simpa [hb] using h1) (by simpa [hb] using h2)
      · intro t ht h1 h2
        simp only [hb, Bool.false_eq_true, if_false]
        exact (h c0 hc0).2 t ht (by simpa [hb] using h1) (by simpa [hb] using h2)
  | recordINP t0 =>
    intro c hc
    simp only [APIMon.step, APIMon.recordINPEvent, APIMon.correlateWithINP] at hc ⊢
    rcases List.mem_map.mp hc with ⟨c0, hc0, rfl⟩
    by_cases hb : c0.blockedINP
    · refine ⟨?_, ?_⟩
      · intro t hl h1 h2
        simp only [hb, if_pos]
        exact (h c0 hc0).1 t hl (by simpa [hb] using h1) (by simpa [hb] using h2)
      · intro t ht h1 h2
        simp [hb]
    · refine ⟨?_, ?_⟩
      · intro t hl h1 h2
        simp only [hb, Bool.false_eq_true, if_false]
        exact (h c0 hc0).1 t hl (by simpa [hb] using h1) (by simpa [hb] using h2)
      · intro t ht h1 h2
        simp only [hb, Bool.false_eq_true, if_false]
        exact APIMon.checkINPBlocking_of_overlap_api _ _ _ t ht
          (by simpa [hb] using h1) (by simpa [hb] using h2)

theorem APIMon.run_flagsCorrect_api (ops : List APIOp) (s : APIMon)
    (h : s.flagsCorrect) : (s.run ops).flagsCorrect := by
  induction ops generalizing s with
  | nil => simpa [APIMon.run] using h
  | cons op ops ih =>
    have : APIMon.run s (op :: ops) = APIMon.run (s.step op) ops := by
      simp [APIMon.run]
    rw [this]
    exact ih _ (s.step_flagsCorrect_api op h)

theorem APIMon.init_flagsCorrect_api : APIMon.init.flagsCorrect := by
  intro c hc
  simp [APIMon.init] at hc

theorem QueryMon.checkLCPBlocking_of_overlap_query (s : QueryMon) (a b t : ℚ)
    (hl : s.lcpTime = some t) (h1 : a < t) (h2 : t < a + b) :
    s.checkLCPBlocking a b = true := by
  simp only [QueryMon.checkLCPBlocking, hl]
  simp [h1, h2]

theorem QueryMon.checkINPBlocking_of_overlap_query (s : QueryMon) (a b t : ℚ)
    (ht : t ∈ s.inpEvents) (h1 : a < t) (h2 : t < a + b) :
    s.checkINPBlocking a b = true :=
  List.any_eq_true.mpr ⟨t, ht, by simp [h1, h2]⟩

/-- When the `fetchDuration` truthiness gate skips a record, that record's
interval `(dataUpdatedAt − fetchDuration, dataUpdatedAt)` is empty. -/
theorem QueryCacheMetric.intervalStart_eq_of_not_truthy (m : QueryCacheMetric)
    (h : fetchDurationTruthy m = false) : m.intervalStart = m.dataUpdatedAt := by
  rcases hm : m.fetchDuration with _ | d
  · simp [QueryCacheMetric.intervalStart, hm]
  · have : d = 0 := by
      by_contra hd
      rw [fetchDurationTruthy, hm] at h
      simp [hd] at h
    simp [QueryCacheMetric.intervalStart, hm, this]

theorem QueryMon.step_flagsCorrect_query (s : QueryMon) (op : QueryOp)
    (hop : op.consistent) (h : s.flagsCorrect) : (s.step op).flagsCorrect := by
  cases op with
  | event e =>
    simp only [QueryMon.step, QueryMon.handleQueryEvent]
    by_cases htype : e.type = "updated"
    · simp only [htype, ne_eq, not_true_eq_false, if_false]
      rcases hq : e.query with _ | q
      · exact h
      · intro m hm
        rcases List.mem_append.mp hm with hmem | hmem
        · exact h m hmem
        · rcases List.mem_singleton.mp hmem with rfl
          by_cases hd : q.dataUpdatedAt > 0
          · have hnow : e.now = q.dataUpdatedAt := hop htype q hq hd
            refine ⟨?_, ?_⟩
            · intro t hl h1 h2
              simp only [QueryCacheMetric.intervalStart, hd, if_pos, Option.getD_some] at h1 h2 ⊢
              refine QueryMon.checkLCPBlocking_of_overlap_query s _ _ t hl ?_ ?_
              · linarith
              · linarith
            · intro t ht h1 h2
              simp only [QueryCacheMetric.intervalStart, hd, if_pos, Option.getD_some] at h1 h2 ⊢
              refine QueryMon.checkINPBlocking_of_overlap_query s _ _ t ht ?_ ?_
              · linarith
              · linarith
          · refine ⟨?_, ?_⟩
            · intro t hl h1 h2
              simp only [QueryCacheMetric.intervalStart, hd, if_neg, Option.getD_none] at h1 h2
              exact absurd (lt_trans h1 h2) (by simp)
            · intro t ht h1 h2
              simp only [QueryCacheMetric.intervalStart, hd, if_neg, Option.getD_none] at h1 h2
              exact absurd (lt_trans h1 h2) (by simp)
    · simp only [htype, ne_eq, not_false_eq_true, if_true]
      exact h
  | setLCP t0 =>
    intro m hm
    simp only [QueryMon.step, QueryMon.setLCPTime, QueryMon.correlateWithLCP] at hm ⊢
    rcases List.mem_map.mp hm with ⟨m0, hm0, rfl⟩
    by_cases hcond : (fetchDurationTruthy m0 && !m0.blockedLCP) = true
    · refine ⟨?_, ?_⟩
      · intro t hl h1 h2
        rcases Option.some.inj hl with rfl
        simp only [hcond, if_pos] at h1 h2 ⊢
        simp only [QueryCacheMetric.intervalStart] at h1 h2
        refine QueryMon.checkLCPBlocking_of_overlap_query _ _ _ t0 rfl h1 ?_
        linarith
      · intro t ht h1 h2
        simp only [hcond, if_pos] at h1 h2 ⊢
        exact (h m0 hm0).2 t ht h1 h2
    · have hcond' : (fetchDurationTruthy m0 && !m0.blockedLCP) = false :=
        Bool.not_eq_true _ ▸ eq_false_of_ne_true hcond
      refine ⟨?_, ?_⟩
      · intro t hl h1 h2
        simp only [hcond', Bool.false_eq_true, if_false] at h1 h2 ⊢
        rcases Bool.and_eq_false_iff.mp hcond' with htr | hb
        · rw [QueryCacheMetric.intervalStart_eq_of_not_truthy m0 htr] at h1
          exact absurd (lt_trans h1 h2) (by simp)
        · simpa using hb
      · intro t ht h1 h2
        simp only [hcond', Bool.false_eq_true, if_false] at h1 h2 ⊢
        exact (h m0 hm0).2 t ht h1 h2
  | recordINP t0 =>
    intro m hm
    simp only [QueryMon.step, QueryMon.recordINPEvent, QueryMon.correlateWithINP] at hm ⊢
    rcases List.mem_map.mp hm with ⟨m0, hm0, rfl⟩
    by_cases hcond : (fetchDurationTruthy m0 && !m0.blockedINP) = true
    · refine ⟨?_, ?_⟩
      · intro t hl h1 h2
        simp only [hcond, if_pos] at h1 h2 ⊢
        exact (h m0 hm0).1 t hl h1 h2
      · intro t ht h1 h2
        simp only [hcond, if_pos] at h1 h2 ⊢
        simp only [QueryCacheMetric.intervalStart] at h1 h2
        refine QueryMon.checkINPBlocking_of_overlap_query _ _ _ t ht h1 ?_
        linarith
    · have hcond' : (fetchDurationTruthy m0 && !m0.blockedINP) = false :=
        Bool.not_eq_true _ ▸ eq_false_of_ne_true hcond
      refine ⟨?_, ?_⟩
      · intro t hl h1 h2
        simp only [hcond', Bool.false_eq_true, if_false] at h1 h2 ⊢
        exact (h m0 hm0).1 t hl h1 h2
      · intro t ht h1 h2
        simp only [hcond', Bool.false_eq_true, if_false] at h1 h2 ⊢
        rcases Bool.and_eq_false_iff.mp hcond' with htr | hb
        · rw [QueryCacheMetric.intervalStart_eq_of_not_truthy m0 htr] at h1
          exact absurd (lt_trans h1 h2) (by simp)
        · simpa using hb

theorem QueryMon.run_flagsCorrect_query (ops : List QueryOp) (s : QueryMon)
    (hops : ∀ op ∈ ops, op.consistent) (h : s.flagsCorrect) :
    (s.run ops).flagsCorrect := by
  induction ops generalizing s with
  | nil => simpa [QueryMon.run] using h
  | cons op ops ih =>
    have hrun : QueryMon.run s (op :: ops) = QueryMon.run (s.step op) ops := by
      simp [QueryMon.run]
    rw [hrun]
    exact ih (s.step op) (fun o ho => hops o (List.mem_cons_of_mem op ho))
      (s.step_flagsCorrect_query op (hops op (List.mem_cons_self op ops)) h)

theorem QueryMon.init_flagsCorrect_query : QueryMon.init.flagsCorrect := by
  intro m hm
  simp [QueryMon.init] at hm

/-! ### Monotonicity of the blocking flags -/

/-- One operation never downgrades a stored call's blocking flags (records
are only ever appended or upgraded in place). -/
theorem APIMon.step_getElem_mono_api (s : APIMon) (op : APIOp) (i : ℕ) (c : APICallMetric)
    (h : s.apiCalls[i]? = some c) :
    ∃ c', (s.step op).apiCalls[i]? = some c' ∧
      (c.blockedLCP = true → c'.blockedLCP = true) ∧
      (c.blockedINP = true → c'.blockedINP = true) := by
  have hi : i < s.apiCalls.length := by
    rcases List.getElem?_eq_some.mp h with ⟨h', _⟩
    exact h'
  cases op with
  | record d =>
    refine ⟨c, ?_, fun hb => hb, fun hb => hb⟩
    simp only [APIMon.step, APIMon.recordAPICall]
    rw [List.getElem?_append_left hi]
    exact h
  | setLCP t0 =>
    simp only [APIMon.step, APIMon.setLCPTime, APIMon.correlateWithLCP]
    refine ⟨_, by rw [List.getElem?_map, h, Option.map_some'], ?_, ?_⟩
    · intro hb
      simp [hb]
    · intro hb
      by_cases hLCP : c.blockedLCP
      · simp [hLCP, hb]
      · simp [hLCP, hb]
  | recordINP t0 =>
    simp only [APIMon.step, APIMon.recordINPEvent, APIMon.correlateWithINP]
    refine ⟨_, by rw [List.getElem?_map, h, Option.map_some'], ?_, ?_⟩
    · intro hb
      by_cases hINP : c.blockedINP
      · simp [hINP, hb]
      · simp [hINP, hb]
    · intro hb
      simp [hb]

theorem APIMon.run_getElem_mono_api (ops : List APIOp) (s : APIMon) (i : ℕ)
    (c : APICallMetric) (h : s.apiCalls[i]? = some c) :
    ∃ c', (s.run ops).apiCalls[i]? = some c' ∧
      (c.blockedLCP = true → c'.blockedLCP = true) ∧
      (c.blockedINP = true → c'.blockedINP = true) := by
  induction ops generalizing s c with
  | nil => exact ⟨c, h, fun hb => hb, fun hb => hb⟩
  | cons op ops ih =>
    have hrun : APIMon.run s (op :: ops) = APIMon.run (s.step op) ops := by
      simp [APIMon.run]
    rcases s.step_getElem_mono_api op i c h with ⟨c1, h1, hL1, hI1⟩
    rcases ih (s.step op) c1 h1 with ⟨c2, h2, hL2, hI2⟩
    exact ⟨c2, hrun ▸ h2, fun hb => hL2 (hL1 hb), fun hb => hI2 (hI1 hb)⟩

/-- One operation never downgrades a stored query record's blocking flags. -/
theorem QueryMon.step_getElem_mono_query (s : QueryMon) (op : QueryOp) (i : ℕ)
    (m : QueryCacheMetric) (h : s.queryMetrics[i]? = some m) :
    ∃ m', (s.step op).queryMetrics[i]? = some m' ∧
      (m.blockedLCP = true → m'.blockedLCP = true) ∧
      (m.blockedINP = true → m'.blockedINP = true) := by
  have hi : i < s.queryMetrics.length := by
    rcases List.getElem?_eq_some.mp h with ⟨h', _⟩
    exact h'
  cases op with
  | event e =>
    simp only [QueryMon.step, QueryMon.handleQueryEvent]
    by_cases htype : e.type = "updated"
    · simp only [htype, ne_eq, not_true_eq_false, if_false]
      rcases hq : e.query with _ | q
      · exact ⟨m, h, fun hb => hb, fun hb => hb⟩
      · refine ⟨m, ?_, fun hb => hb, fun hb => hb⟩
        rw [List.getElem?_append_left hi]
        exact h
    · simp only [htype, ne_eq, not_false_eq_true, if_true]
      exact ⟨m, h, fun hb => hb, fun hb => hb⟩
  | setLCP t0 =>
    simp only [QueryMon.step, QueryMon.setLCPTime, QueryMon.correlateWithLCP]
    refine ⟨_, by rw [List.getElem?_map, h, Option.map_some'], ?_, ?_⟩
    · intro hb
      simp [hb]
    · intro hb
      by_cases hc : (fetchDurationTruthy m && !m.blockedLCP) = true
      · simp [hc, hb]
      · simp [eq_false_of_ne_true hc, hb]
  | recordINP t0 =>
    simp only [QueryMon.step, QueryMon.recordINPEvent, QueryMon.correlateWithINP]
    refine ⟨_, by rw [List.getElem?_map, h, Option.map_some'], ?_, ?_⟩
    · intro hb
      by_cases hc : (fetchDurationTruthy m && !m.blockedINP) = true
      · simp [hc, hb]
      · simp [eq_false_of_ne_true hc, hb]
    · intro hb
      simp [hb]

theorem QueryMon.run_getElem_mono_query (ops : List QueryOp) (s : QueryMon) (i : ℕ)
    (m : QueryCacheMetric) (h : s.queryMetrics[i]? = some m) :
    ∃ m', (s.run ops).queryMetrics[i]? = some m' ∧
      (m.blockedLCP = true → m'.blockedLCP = true) ∧
      (m.blockedINP = true → m'.blockedINP = true) := by
  induction ops generalizing s m with
  | nil => exact ⟨m, h, fun hb => hb, fun hb => hb⟩
  | cons op ops ih =>
    have hrun : QueryMon.run s (op :: ops) = QueryMon.run (s.step op) ops := by
      simp [QueryMon.run]
    rcases s.step_getElem_mono_query op i m h with ⟨m1, h1, hL1, hI1⟩
    rcases ih (s.step op) m1 h1 with ⟨m2, h2, hL2, hI2⟩
    exact ⟨m2, hrun ▸ h2, fun hb => hL2 (hL1 hb), fun hb => hI2 (hI1 hb)⟩

/-! ## Claims -/

/-! ### C1 — eventual correctness of the blocking flags -/

/-- Counterexample inputs for C1: one query event handled well after its
record's `dataUpdatedAt` (creation-time interval `(100, 400)`), the paint
instant `250`, then one more event whose stored interval `(240, 260)`
contains the paint instant but whose creation-time interval `(300, 320)`
does not. -/
def c1ceQ1 : QueryData :=
  ⟨"a", QueryStatus.success, FetchStatus.idle, 1000, 0, some 100, none, none⟩

def c1ceQ2 : QueryData :=
  ⟨"b", QueryStatus.success, FetchStatus.idle, 260, 0, some 300, none, none⟩

def c1ceOps : List QueryOp :=
  [QueryOp.event ⟨"updated", some c1ceQ1, 400⟩, QueryOp.setLCP 250,
   QueryOp.event ⟨"updated", some c1ceQ2, 320⟩]

def c1ceState : QueryMon := QueryMon.init.run c1ceOps

/-- C1 counterexample: after all instants are reported (the paint instant
250), the stored query-cache record "b" has interval
`(intervalStart, dataUpdatedAt) = (240, 260)` which strictly contains 250,
yet its blocked-largest-paint flag is still `false` (record "a", created
from a call spanning `(100, 400)` which also contains 250, is unflagged as
well): the claim fails on the query monitor because the creation-time check
uses `(_fetchStartTime, now)` while the correlation pass uses
`(dataUpdatedAt − fetchDuration, dataUpdatedAt)`. -/
theorem c1_counterexample :
    c1ceState.lcpTime = some 250 ∧
    c1ceState.queryMetrics.map
      (fun m => (m.intervalStart, m.dataUpdatedAt, m.blockedLCP)) =
      [(700, 1000, false), (240, 260, false)] ∧
    (240 : ℚ) < 250 ∧ (250 : ℚ) < 260 := by
  refine ⟨?_, ?_, by norm_num, by norm_num⟩
  · norm_num [c1ceState, c1ceOps, c1ceQ1, c1ceQ2, QueryMon.run, QueryMon.step,
      QueryMon.init, QueryMon.handleQueryEvent, QueryMon.setLCPTime,
      QueryMon.correlateWithLCP, QueryMon.checkLCPBlocking, QueryMon.checkINPBlocking,
      jsOrQ, fetchDurationTruthy, execGet, execSet, List.foldl]
  · norm_num [c1ceState, c1ceOps, c1ceQ1, c1ceQ2, QueryMon.run, QueryMon.step,
      QueryMon.init, QueryMon.handleQueryEvent, QueryMon.setLCPTime,
      QueryMon.correlateWithLCP, QueryMon.checkLCPBlocking, QueryMon.checkINPBlocking,
      jsOrQ, fetchDurationTruthy, execGet, execSet,
      QueryCacheMetric.intervalStart, List.foldl]

/-- C1 (amended): over every interleaving of inserted interval records and
reported paint/interaction instants, once all instants are reported, every
stored API-call record whose interval `(startTime, startTime + duration)`
strictly contains a known instant carries the corresponding blocking flag;
and every stored query-cache record — whose stored interval is
`(dataUpdatedAt − fetchDuration, dataUpdatedAt)` — likewise, provided each
query event is handled at the instant recorded in its `dataUpdatedAt`
(whenever `dataUpdatedAt > 0`), which makes the creation-time overlap check
agree with the correlation-pass interval. -/
theorem c1_blocking_flags_eventually_correct
    (aops : List APIOp) (qops : List QueryOp)
    (hq : ∀ op ∈ qops, op.consistent) :
    (APIMon.init.run aops).flagsCorrect ∧ (QueryMon.init.run qops).flagsCorrect :=
  ⟨APIMon.run_flagsCorrect_api aops APIMon.init APIMon.init_flagsCorrect_api,
   QueryMon.run_flagsCorrect_query qops QueryMon.init hq QueryMon.init_flagsCorrect_query⟩

def c1wQ : QueryData :=
  ⟨"k", QueryStatus.success, FetchStatus.idle, 300, 0, some 100, none, none⟩

def c1wQops : List QueryOp :=
  [QueryOp.setLCP 250, QueryOp.event ⟨"updated", some c1wQ, 300⟩]

def c1wAops : List APIOp :=
  [APIOp.record ⟨"u", "GET", 100, 300, 300, 200, 0⟩, APIOp.setLCP 250,
   APIOp.recordINP 350]

/-- C1 witness: on a concrete consistent interleaving every record ends up
flagged (the API call spanning `(100, 400)` against the paint instant 250
and the interaction instant 350; the query record spanning `(100, 300)`
against the paint instant 250). -/
theorem c1_witness :
    (APIMon.init.run c1wAops).apiCalls.all (fun c => c.blockedLCP) = true ∧
    (APIMon.init.run c1wAops).apiCalls.all (fun c => c.blockedINP) = true ∧
    (QueryMon.init.run c1wQops).queryMetrics.all (fun m => m.blockedLCP) = true ∧
    (APIMon.init.run c1wAops).apiCalls.length = 1 ∧
    (QueryMon.init.run c1wQops).queryMetrics.length = 1 := by
  have hcons : ∀ op ∈ c1wQops, op.consistent := by
    intro op hop
    rcases List.mem_cons.mp hop with rfl | hop
    · exact trivial
    rcases List.mem_cons.mp hop with rfl | hop
    · intro htype q hq hd
      injection hq with h
      rw [← h]
      rfl
    · cases hop
  have h := c1_blocking_flags_eventually_correct c1wAops c1wQops hcons
  have hapi : (APIMon.init.run c1wAops).apiCalls.map (fun c => c.startTime) = [100] ∧
      (APIMon.init.run c1wAops).apiCalls.map (fun c => c.duration) = [300] := by
    constructor
    · norm_num [c1wAops, APIMon.run, APIMon.step, APIMon.init, APIMon.recordAPICall,
        APIMon.setLCPTime, APIMon.recordINPEvent, APIMon.correlateWithLCP,
        APIMon.correlateWithINP, APIMon.checkLCPBlocking, APIMon.checkINPBlocking,
        mapSetQ, List.foldl]
    · norm_num [c1wAops, APIMon.run, APIMon.step, APIMon.init, APIMon.recordAPICall,
        APIMon.setLCPTime, APIMon.recordINPEvent, APIMon.correlateWithLCP,
        APIMon.correlateWithINP, APIMon.checkLCPBlocking, APIMon.checkINPBlocking,
        mapSetQ, List.foldl]
  have hlcp : (APIMon.init.run c1wAops).lcpTime = some 250 := by
    norm_num [c1wAops, APIMon.run, APIMon.step, APIMon.init, APIMon.recordAPICall,
      APIMon.setLCPTime, APIMon.recordINPEvent, APIMon.correlateWithLCP,
      APIMon.correlateWithINP, mapSetQ, List.foldl]
  have hinp : (350 : ℚ) ∈ (APIMon.init.run c1wAops).inpEvents := by
    norm_num [c1wAops, APIMon.run, APIMon.step, APIMon.init, APIMon.recordAPICall,
      APIMon.setLCPTime, APIMon.recordINPEvent, APIMon.correlateWithLCP,
      APIMon.correlateWithINP, mapSetQ, List.foldl]
  have hqm : (QueryMon.init.run c1wQops).queryMetrics.map
        (fun m => m.intervalStart) = [100] ∧
      (QueryMon.init.run c1wQops).queryMetrics.map
        (fun m => m.dataUpdatedAt) = [300] ∧
      (QueryMon.init.run c1wQops).lcpTime = some 250 := by
    refine ⟨?_, ?_, ?_⟩ <;>
      norm_num [c1wQops, c1wQ, QueryMon.run, QueryMon.step, QueryMon.init,
        QueryMon.handleQueryEvent, QueryMon.setLCPTime, QueryMon.correlateWithLCP,
        QueryMon.checkLCPBlocking, QueryMon.checkINPBlocking, jsOrQ,
        fetchDurationTruthy, execGet, execSet, QueryCacheMetric.intervalStart,
        List.foldl]
  refine ⟨?_, ?_, ?_, ?_, ?_⟩
  · refine List.all_eq_true.mpr ?_
    intro c hc
    have hst : c.startTime = 100 := by
      have := List.mem_map_of_mem (fun c => c.startTime) hc
      rw [hapi.1] at this
      simpa using this
    have hdu : c.duration = 300 := by
      have := List.mem_map_of_mem (fun c => c.duration) hc
      rw [hapi.2] at this
      simpa using this
    exact (h.1 c hc).1 250 hlcp (by rw [hst]; norm_num) (by rw [hst, hdu]; norm_num)
  · refine List.all_eq_true.mpr ?_
    intro c hc
    have hst : c.startTime = 100 := by
      have := List.mem_map_of_mem (fun c => c.startTime) hc
      rw [hapi.1] at this
      simpa using this
    have hdu : c.duration = 300 := by
      have := List.mem_map_of_mem (fun c => c.duration) hc
      rw [hapi.2] at this
      simpa using this
    exact (h.1 c hc).2 350 hinp (by rw [hst]; norm_num) (by rw [hst, hdu]; norm_num)
  · refine List.all_eq_true.mpr ?_
    intro m hm
    have hst : m.intervalStart = 100 := by
      have := List.mem_map_of_mem (fun m => m.intervalStart) hm
      rw [hqm.1] at this
      simpa using this
    have hdu : m.dataUpdatedAt = 300 := by
      have := List.mem_map_of_mem (fun m => m.dataUpdatedAt) hm
      rw [hqm.2.1] at this
      simpa using this
    exact (h.2 m hm).1 250 hqm.2.2 (by rw [hst]; norm_num) (by rw [hdu]; norm_num)
  · have := congrArg List.length hapi.1
    simpa using this
  · have := congrArg List.length hqm.1
    simpa using this

/-! ### C2 — monotonicity of the blocking flags -/

/-- C2: over any sequence of operations on either monitor (recording
calls/events, `setLCPTime`, `recordINPEvent`), a stored record's blocking
flag that is `true` is never reset to `false` by a later operation:
correlation passes only upgrade. -/
theorem c2_blocking_flags_monotone :
    (∀ (ops : List APIOp) (s : APIMon) (i : ℕ) (c : APICallMetric),
        s.apiCalls[i]? = some c →
        ∃ c', (s.run ops).apiCalls[i]? = some c' ∧
          (c.blockedLCP = true → c'.blockedLCP = true) ∧
          (c.blockedINP = true → c'.blockedINP = true)) ∧
    (∀ (ops : List QueryOp) (s : QueryMon) (i : ℕ) (m : QueryCacheMetric),
        s.queryMetrics[i]? = some m →
        ∃ m', (s.run ops).queryMetrics[i]? = some m' ∧
          (m.blockedLCP = true → m'.blockedLCP = true) ∧
          (m.blockedINP = true → m'.blockedINP = true)) :=
  ⟨fun ops s i c h => APIMon.run_getElem_mono_api ops s i c h,
   fun ops s i m h => QueryMon.run_getElem_mono_query ops s i m h⟩

def c2wCall : APICallMetric := ⟨"u", "GET", 0, 10, 10, 200, 0, true, true⟩

def c2wApi : APIMon := ⟨[c2wCall], [], none, []⟩

def c2wMetric : QueryCacheMetric :=
  ⟨"k", QueryStatus.success, FetchStatus.idle, 100, 0, some 10, 300000, 0, true, true⟩

def c2wQuery : QueryMon := ⟨[c2wMetric], [("k", ⟨1, 10⟩)], none, []⟩

def c2wAops : List APIOp :=
  [APIOp.setLCP 5, APIOp.recordINP 20, APIOp.record ⟨"v", "GET", 1, 2, 2, 200, 0⟩]

def c2wQops : List QueryOp := [QueryOp.setLCP 5, QueryOp.recordINP 20]

/-- C2 witness: a record stored with both flags `true` still reports both
flags `true` after further instant reports and insertions. -/
theorem c2_witness :
    (c2wApi.run c2wAops).apiCalls[0]?.map (fun c => (c.blockedLCP, c.blockedINP)) =
      some (true, true) ∧
    (c2wQuery.run c2wQops).queryMetrics[0]?.map (fun m => (m.blockedLCP, m.blockedINP)) =
      some (true, true) := by
  constructor
  · rcases c2_blocking_flags_monotone.1 c2wAops c2wApi 0 c2wCall rfl with ⟨c', hc', hL, hI⟩
    rw [hc', Option.map_some', hL rfl, hI rfl]
  · rcases c2_blocking_flags_monotone.2 c2wQops c2wQuery 0 c2wMetric rfl with ⟨m', hm', hL, hI⟩
    rw [hm', Option.map_some', hL rfl, hI rfl]

/-! ### C3 — the strict-overlap marking rule for the paint instant -/

/-- C3: when a largest-paint instant `t` is recorded, a stored record whose
flag was still `false` ends with its flag equal to exactly the strict
overlap test `startTime < t ∧ t < startTime + duration`. -/
theorem c3_lcp_marking_iff (s : APIMon) (t : ℚ) (i : ℕ) (c : APICallMetric)
    (h : s.apiCalls[i]? = some c) (hb : c.blockedLCP = false) :
    (s.setLCPTime t).apiCalls[i]?.map (fun c' => c'.blockedLCP) =
      some (decide (c.startTime < t ∧ t < c.startTime + c.duration)) := by
  simp only [APIMon.setLCPTime, APIMon.correlateWithLCP]
  rw [List.getElem?_map, h, Option.map_some']
  simp only [hb, Bool.false_eq_true, if_false]
  simp [APIMon.checkLCPBlocking, Bool.decide_and]

def c3sA : APIMon := APIMon.init.recordAPICall ⟨"a", "GET", 100, 300, 300, 200, 0⟩

def c3sB : APIMon := APIMon.init.recordAPICall ⟨"b", "GET", 500, 50, 50, 200, 0⟩

def c3cA : APICallMetric := ⟨"a", "GET", 100, 300, 300, 200, 0, false, false⟩

def c3cB : APICallMetric := ⟨"b", "GET", 500, 50, 50, 200, 0, false, false⟩

/-- C3 witness, the concrete scenario: the API call starting at 100ms for
300ms has `blockedLCP = false` before the paint instant 250 is recorded and
`true` after; the call starting at 500ms for 50ms stays `false`. -/
theorem c3_witness :
    c3sA.apiCalls[0]?.map (fun c => c.blockedLCP) = some false ∧
    (c3sA.setLCPTime 250).apiCalls[0]?.map (fun c => c.blockedLCP) = some true ∧
    (c3sB.setLCPTime 250).apiCalls[0]?.map (fun c => c.blockedLCP) = some false := by
  refine ⟨rfl, ?_, ?_⟩
  · have h := c3_lcp_marking_iff c3sA 250 0 c3cA rfl rfl
    rw [h]
    have hov : (100 : ℚ) < 250 ∧ (250 : ℚ) < 100 + 300 := by norm_num
    simp [c3cA, hov]
  · have h := c3_lcp_marking_iff c3sB 250 0 c3cB rfl rfl
    rw [h]
    have hov : ¬ ((500 : ℚ) < 250 ∧ (250 : ℚ) < 500 + 50) := by norm_num
    simp [c3cB, hov]

/-! ### C4 — mean compression ratio -/

/-- The ratios the aggregator keeps, pushed through
`convertToResourceTiming`: exactly the raw entries with positive encoded
and positive decoded size survive. -/
theorem compressionRatios_map_convert (l : List RawResourceEntry) :
    ((l.map convertToResourceTiming).map (fun r => r.compressionRatio)).filterMap
      keepPositiveRatio =
    (l.filter (fun e => decide (0 < e.encodedBodySize) &&
        decide (0 < e.decodedBodySize))).map
      (fun e => e.decodedBodySize / e.encodedBodySize) := by
  induction l with
  | nil => rfl
  | cons a l ih =>
    simp only [List.map_cons, List.filterMap_cons, List.filter_cons]
    by_cases henc : 0 < a.encodedBodySize
    · have hr : (convertToResourceTiming a).compressionRatio =
          some (a.decodedBodySize / a.encodedBodySize) := by
        simp [convertToResourceTiming, henc]
      rw [hr]
      by_cases hdec : 0 < a.decodedBodySize
      · have hpos : a.decodedBodySize / a.encodedBodySize > 0 := div_pos hdec henc
        simp [keepPositiveRatio, hpos, henc, hdec, ih,
          -List.filterMap_map, -List.map_map]
      · have hnpos : ¬ (a.decodedBodySize / a.encodedBodySize > 0) := by
          rw [gt_iff_lt, div_pos_iff_of_pos_right henc]
          exact hdec
        simp [keepPositiveRatio, hnpos, henc, hdec, ih,
          -List.filterMap_map, -List.map_map]
    · have hr : (convertToResourceTiming a).compressionRatio = none := by
        simp [convertToResourceTiming, henc]
      rw [hr]
      simp [keepPositiveRatio, henc, ih, -List.filterMap_map, -List.map_map]

/-- Stated from the spec sentence, for comparison with the source: the mean
compression ratio over exactly the records where the ratio is defined
(undefined ratios excluded from both numerator and denominator), `0` when
none is defined. -/
def specAverageCompressionRatio (resources : List ResourceTimingEntry) : ℚ :=
  let ratios := resources.filterMap (fun r => r.compressionRatio)
  if ratios.length = 0 then 0 else ratios.sum / ratios.length

def c4rawA : RawResourceEntry :=
  ⟨"a", "resource", 0, 5, "link", "h2", some "non-blocking",
   0, 0, 0, 0, 0, 0, 0, 0, 0, 100, 100, 0⟩

def c4rawB : RawResourceEntry :=
  ⟨"b", "resource", 0, 5, "link", "h2", some "non-blocking",
   0, 0, 0, 0, 0, 0, 0, 0, 0, 100, 100, 300⟩

def c4st : ResMon := (ResMon.init.handleResourceEntry c4rawA).handleResourceEntry c4rawB

/-- C4 counterexample: a record with encoded size 100 and decoded size 0
has a **defined** compression ratio `0`, but the source's filter `r > 0`
drops it: with a second record of ratio `3` the code returns `3`, while the
mean over exactly the defined ratios is `3/2`. -/
theorem c4_counterexample :
    c4st.resources.map (fun r => r.compressionRatio) = [some 0, some 3] ∧
    c4st.getAverageCompressionRatio = 3 ∧
    specAverageCompressionRatio c4st.resources = 3 / 2 ∧
    c4st.getAverageCompressionRatio ≠ specAverageCompressionRatio c4st.resources := by
  have h1 : c4st.resources.map (fun r => r.compressionRatio) = [some 0, some 3] := by
    norm_num [c4st, c4rawA, c4rawB, ResMon.init, ResMon.handleResourceEntry,
      convertToResourceTiming, getRenderBlockingStatus]
  have h2 : c4st.getAverageCompressionRatio = 3 := by
    norm_num [c4st, c4rawA, c4rawB, ResMon.init, ResMon.handleResourceEntry,
      ResMon.getAverageCompressionRatio, keepPositiveRatio, convertToResourceTiming,
      getRenderBlockingStatus, List.filterMap, List.foldl]
  have h3 : specAverageCompressionRatio c4st.resources = 3 / 2 := by
    rw [specAverageCompressionRatio]
    norm_num [c4st, c4rawA, c4rawB, ResMon.init, ResMon.handleResourceEntry,
      convertToResourceTiming, getRenderBlockingStatus, List.filterMap]
  refine ⟨h1, h2, h3, ?_⟩
  rw [h2, h3]
  norm_num

/-- C4 (amended): `getAverageCompressionRatio` returns the arithmetic mean
of `decoded / encoded` over exactly those records whose ratio is defined
**and strictly positive** (encoded size positive and decoded size
positive); with no such record it returns `0` — in particular a defined
ratio of `0` (decoded size 0) is excluded from both numerator and
denominator. -/
theorem c4_average_compression_ratio (l : List RawResourceEntry) :
    ResMon.getAverageCompressionRatio ⟨l.map convertToResourceTiming⟩ =
      (let elig := l.filter (fun e => decide (0 < e.encodedBodySize) &&
          decide (0 < e.decodedBodySize))
       if elig.length = 0 then 0
       else (elig.map (fun e => e.decodedBodySize / e.encodedBodySize)).sum /
         elig.length) := by
  simp only [ResMon.getAverageCompressionRatio]
  rw [compressionRatios_map_convert]
  simp only [List.length_map, List.sum_eq_foldl]

/-! ### C5 — cache-hit-rate formula -/

theorem foldl_add_eq_add_sum {α : Type} (f : α → ℚ) (l : List α) (n : ℚ) :
    l.foldl (fun sum x => sum + f x) n = n + (l.map f).sum := by
  induction l generalizing n with
  | nil => simp
  | cons a l ih => simp [ih, add_assoc]

theorem foldl_add_count_eq (l : List (String × ExecStat)) (n : ℕ) :
    l.foldl (fun sum p => sum + p.2.count) n = n + (l.map (fun p => p.2.count)).sum := by
  induction l generalizing n with
  | nil => simp
  | cons p l ih => simp [ih, Nat.add_assoc]

/-- `Map.set` with an incremented counter raises the total count by one,
whether the key is new or already present. -/
theorem sumCounts_execSet (l : List (String × ExecStat)) (k : String) (d : ℚ) :
    ((execSet l k ⟨((execGet l k).getD ⟨0, 0⟩).count + 1, d⟩).map
      (fun p => p.2.count)).sum = (l.map (fun p => p.2.count)).sum + 1 := by
  induction l with
  | nil => simp [execSet, execGet]
  | cons p l ih =>
    by_cases hp : p.1 = k
    · have hget : execGet (p :: l) k = some p.2 := by
        simp [execGet, List.find?_cons, hp]
      rw [hget]
      simp only [execSet, if_pos hp, List.map_cons, List.sum_cons, Option.getD_some]
      omega
    · have hget : execGet (p :: l) k = execGet l k := by
        simp [execGet, List.find?_cons, hp]
      rw [hget]
      simp only [execSet, if_neg hp, List.map_cons, List.sum_cons]
      omega

/-- C5: `getQueryCacheStats` returns
`cacheHitRate = (E − N) / E` where `E` is the running total of per-key
execution counters — incremented by exactly one on every handled
`'updated'` cache event and by nothing else — and `N` is the number of
stored query-cache records; `0` when `E = 0`. -/
theorem c5_cache_hit_rate :
    (∀ (s : QueryMon) (now : ℚ),
      (s.getQueryCacheStats now).cacheHitRate =
        if 0 < s.totalExecutions then
          ((s.totalExecutions : ℚ) - (s.queryMetrics.length : ℚ)) / (s.totalExecutions : ℚ)
        else 0) ∧
    (∀ (s : QueryMon) (e : QueryEvent) (q : QueryData),
      e.type = "updated" → e.query = some q →
        (s.handleQueryEvent e).totalExecutions = s.totalExecutions + 1 ∧
        (s.handleQueryEvent e).queryMetrics.length = s.queryMetrics.length + 1) ∧
    (∀ (s : QueryMon) (e : QueryEvent),
      e.type ≠ "updated" ∨ e.query = none → s.handleQueryEvent e = s) := by
  refine ⟨?_, ?_, ?_⟩
  · intro s now
    rfl
  · intro s e q htype hq
    simp only [QueryMon.handleQueryEvent, htype, ne_eq, not_true_eq_false, if_false, hq]
    constructor
    · rw [QueryMon.totalExecutions, QueryMon.totalExecutions, foldl_add_count_eq,
        foldl_add_count_eq, sumCounts_execSet]
      omega
    · simp
  · intro s e h
    rcases h with h | h
    · simp [QueryMon.handleQueryEvent, h]
    · by_cases htype : e.type = "updated"
      · simp [QueryMon.handleQueryEvent, htype, h]
      · simp [QueryMon.handleQueryEvent, htype]

def c5q : QueryData :=
  ⟨"k", QueryStatus.success, FetchStatus.idle, 100, 0, some 10, none, none⟩

def c5e : QueryEvent := ⟨"updated", some c5q, 100⟩

/-- C5 witness: on a fresh monitor one handled update event yields `E = 1`,
`N = 1` and hence a cache-hit rate of `(1 − 1) / 1 = 0`. -/
theorem c5_witness :
    (QueryMon.init.handleQueryEvent c5e).totalExecutions =
      QueryMon.init.totalExecutions + 1 ∧
    (QueryMon.init.handleQueryEvent c5e).queryMetrics.length =
      QueryMon.init.queryMetrics.length + 1 ∧
    QueryMon.init.totalExecutions = 0 ∧
    ((QueryMon.init.handleQueryEvent c5e).getQueryCacheStats 200).cacheHitRate = 0 := by
  have h := c5_cache_hit_rate.2.1 QueryMon.init c5e c5q rfl rfl
  refine ⟨h.1, h.2, rfl, ?_⟩
  rw [c5_cache_hit_rate.1, h.1, h.2]
  norm_num [QueryMon.init, QueryMon.totalExecutions]

/-! ### C6 — total blocking time over long frames -/

def c6Entry : RawLongTaskEntry := ⟨"self", 30, 120⟩

/-- C6: `getTotalBlockingTime` is `Σ max(0, duration − 50)` over all stored
frames, unchanged under arbitrary rewrites of the stored
platform-reported `blockingDuration` field; a single long-task frame of
duration 120ms (whose synthesized record carries blocking duration 70)
contributes exactly 70ms. -/
theorem c6_total_blocking_time :
    (∀ s : LoafMon,
      s.getTotalBlockingTime = (s.frames.map (fun f => max 0 (f.duration - 50))).sum) ∧
    (∀ (s : LoafMon) (g : LongAnimationFrameEntry → ℚ),
      LoafMon.getTotalBlockingTime
          ⟨s.frames.map (fun f => { f with blockingDuration := g f })⟩ =
        s.getTotalBlockingTime) ∧
    ((LoafMon.init.handleLongTaskEntry c6Entry).frames.map
        (fun f => f.blockingDuration) = [70] ∧
      (LoafMon.init.handleLongTaskEntry c6Entry).getTotalBlockingTime = 70) := by
  refine ⟨?_, ?_, ?_, ?_⟩
  · intro s
    rw [LoafMon.getTotalBlockingTime, foldl_add_eq_add_sum, zero_add]
  · intro s g
    simp only [LoafMon.getTotalBlockingTime, List.foldl_map]
  · norm_num [LoafMon.init, LoafMon.handleLongTaskEntry, c6Entry, max_def]
  · norm_num [LoafMon.init, LoafMon.handleLongTaskEntry, LoafMon.getTotalBlockingTime,
      c6Entry, List.foldl, max_def]

/-! ### C7 — top-k selection -/

theorem take_sortByDesc_pairwise {α : Type} (key : α → ℚ) (l : List α) (k : ℕ) :
    ((sortByDesc key l).take k).Pairwise (fun a b => key b ≤ key a) :=
  List.Pairwise.sublist (List.take_sublist k _) (sortByDesc_pairwise key l)

theorem take_length_sortByDesc {α : Type} (key : α → ℚ) (l : List α) :
    (sortByDesc key l).take l.length = sortByDesc key l :=
  List.take_of_length_le (le_of_eq (sortByDesc_perm key l).length_eq)

theorem take_sortByDesc_perm {α : Type} (key : α → ℚ) (l : List α) (k : ℕ)
    (h : l.length ≤ k) : List.Perm ((sortByDesc key l).take k) l := by
  rw [List.take_of_length_le (le_trans (le_of_eq (sortByDesc_perm key l).length_eq) h)]
  exact sortByDesc_perm key l

/-- C7: the top-k selections (`getSlowestCalls`, `getLargestResources`,
`getSlowestResources`) are idempotent (pure reads: two calls on the same
log state are identical), return records sorted descending by the named
field with ties kept in original log order, and with `k` at least the log
length return a permutation of the whole log (still sorted, by the sorted
conjunct). -/
theorem c7_topk (s : APIMon) (r : ResMon) (k : ℕ) (d : ℚ) :
    (s.getSlowestCalls k = s.getSlowestCalls k ∧
     r.getLargestResources k = r.getLargestResources k ∧
     r.getSlowestResources k = r.getSlowestResources k) ∧
    ((s.getSlowestCalls k).Pairwise (fun a b => b.duration ≤ a.duration) ∧
     (r.getLargestResources k).Pairwise (fun a b => b.transferSize ≤ a.transferSize) ∧
     (r.getSlowestResources k).Pairwise (fun a b => b.duration ≤ a.duration)) ∧
    ((s.getSlowestCalls s.apiCalls.length).filter (fun c => decide (c.duration = d)) =
       s.apiCalls.filter (fun c => decide (c.duration = d)) ∧
     (r.getLargestResources r.resources.length).filter
         (fun e => decide (e.transferSize = d)) =
       r.resources.filter (fun e => decide (e.transferSize = d)) ∧
     (r.getSlowestResources r.resources.length).filter
         (fun e => decide (e.duration = d)) =
       r.resources.filter (fun e => decide (e.duration = d))) ∧
    (s.apiCalls.length ≤ k → List.Perm (s.getSlowestCalls k) s.apiCalls) ∧
    (r.resources.length ≤ k → List.Perm (r.getLargestResources k) r.resources) ∧
    (r.resources.length ≤ k → List.Perm (r.getSlowestResources k) r.resources) := by
  refine ⟨⟨rfl, rfl, rfl⟩, ⟨?_, ?_, ?_⟩, ⟨?_, ?_, ?_⟩, ?_, ?_, ?_⟩
  · exact take_sortByDesc_pairwise _ _ _
  · exact take_sortByDesc_pairwise _ _ _
  · exact take_sortByDesc_pairwise _ _ _
  · rw [APIMon.getSlowestCalls, take_length_sortByDesc]
    exact sortByDesc_filter _ _ _
  · rw [ResMon.getLargestResources, take_length_sortByDesc]
    exact sortByDesc_filter _ _ _
  · rw [ResMon.getSlowestResources, take_length_sortByDesc]
    exact sortByDesc_filter _ _ _
  · intro h
    exact take_sortByDesc_perm _ _ _ h
  · intro h
    exact take_sortByDesc_perm _ _ _ h
  · intro h
    exact take_sortByDesc_perm _ _ _ h

def c7c1 : APICallMetric := ⟨"x", "GET", 0, 7, 7, 200, 0, false, false⟩

def c7c2 : APICallMetric := ⟨"y", "GET", 1, 9, 9, 200, 0, false, false⟩

def c7c3 : APICallMetric := ⟨"z", "GET", 2, 7, 7, 200, 0, false, false⟩

def c7Api : APIMon := ⟨[c7c1, c7c2, c7c3], [], none, []⟩

def c7r1 : ResourceTimingEntry :=
  ⟨"r1", "resource", 0, 4, "link", "h2", RenderBlockingStatus.nonBlocking,
   0, 0, 0, 0, 0, 0, 0, 0, 0, 5, 0, 0, none⟩

def c7r2 : ResourceTimingEntry :=
  ⟨"r2", "resource", 0, 6, "link", "h2", RenderBlockingStatus.nonBlocking,
   0, 0, 0, 0, 0, 0, 0, 0, 0, 5, 0, 0, none⟩

def c7r3 : ResourceTimingEntry :=
  ⟨"r3", "resource", 0, 8, "link", "h2", RenderBlockingStatus.nonBlocking,
   0, 0, 0, 0, 0, 0, 0, 0, 0, 8, 0, 0, none⟩

def c7Res : ResMon := ⟨[c7r1, c7r2, c7r3]⟩

/-- C7 witness: a three-call log with a duration tie sorts to
`[9, 7, 7]` keeping the tied calls in log order, and `k = 5` past the log
length returns the whole log. -/
theorem c7_witness :
    c7Api.getSlowestCalls 5 = [c7c2, c7c1, c7c3] ∧
    List.Perm (c7Api.getSlowestCalls 5) c7Api.apiCalls ∧
    c7Res.getLargestResources 9 = [c7r3, c7r1, c7r2] ∧
    List.Perm (c7Res.getSlowestResources 9) c7Res.resources := by
  refine ⟨by decide, ?_, by decide, ?_⟩
  · exact (c7_topk c7Api c7Res 5 0).2.2.2.1 (by decide)
  · exact (c7_topk c7Api c7Res 9 0).2.2.2.2.2 (by decide)

/-! ### C8 — clear() resets the snapshot -/

/-- The query-cache statistics of an empty query log. -/
def emptyQueryCacheStats : QueryCacheStats := ⟨0, 0, 0, 0, 0, 0, [], []⟩

def c8m : PerfMon := (PerfMon.mk' Framework.react "s" 0).initializeQueryClient []

def c8env : SessionEnv := ⟨"http://x", "ua", none, 0⟩

/-- C8 counterexample: on a monitor whose query client was initialized,
the snapshot after `clear()` carries a zeroed query-cache block
(`some emptyQueryCacheStats`) while a freshly-constructed monitor's
snapshot carries none, so the two snapshots are not structurally
identical. -/
theorem c8_counterexample :
    (c8m.clear.getPerformanceSession c8env).queryCache = some emptyQueryCacheStats ∧
    ((PerfMon.mk' Framework.react "s" 0).getPerformanceSession c8env).queryCache = none ∧
    c8m.clear.getPerformanceSession c8env ≠
      (PerfMon.mk' Framework.react "s" 0).getPerformanceSession c8env := by
  refine ⟨rfl, rfl, ?_⟩
  intro h
  have h2 := congrArg PerformanceSession.queryCache h
  rw [show (c8m.clear.getPerformanceSession c8env).queryCache =
        some emptyQueryCacheStats from rfl] at h2
  rw [show ((PerfMon.mk' Framework.react "s" 0).getPerformanceSession c8env).queryCache =
        none from rfl] at h2
  cases h2

/-- C8 (amended): after `clear()` the next snapshot has every derived
statistic at its empty-state value — all logs empty, hydration absent,
counts and rates 0, top-k lists empty — with the query-cache block a zeroed
stats record when a query client was initialized and absent otherwise; and
when no query client was initialized the snapshot is structurally identical
to the snapshot of a freshly-constructed monitor with the same framework,
session id and creation instant.  (With a query client initialized the two
snapshots differ exactly in that block: see the counterexample.) -/
theorem c8_clear_resets (m : PerfMon) (env : SessionEnv) :
    (m.clear.getPerformanceSession env).webVitals = [] ∧
    (m.clear.getPerformanceSession env).resources = [] ∧
    (m.clear.getPerformanceSession env).longFrames = [] ∧
    (m.clear.getPerformanceSession env).apiCalls = [] ∧
    (m.clear.getPerformanceSession env).hydration = none ∧
    (m.clear.getPerformanceSession env).queryCache =
      (if m.queryClientInitialized then some emptyQueryCacheStats else none) ∧
    (m.clear.getPerformanceSession env).summary =
      { totalResources := 0, blockingResources := 0, totalTransferSize := 0,
        averageCompressionRatio := 0, apiCallCount := 0, averageApiLatency := 0,
        longFrameCount := 0, totalBlockingTime := 0,
        queryCount := if m.queryClientInitialized then some 0 else none,
        queryCacheHitRate := if m.queryClientInitialized then some 0 else none,
        averageQueryDuration := if m.queryClientInitialized then some 0 else none } ∧
    (m.queryClientInitialized = false →
      m.clear.getPerformanceSession env =
        (PerfMon.mk' m.framework m.sessionId m.sessionStartTime).getPerformanceSession env) := by
  cases hqc : m.queryClientInitialized with
  | true =>
    refine ⟨rfl, rfl, rfl, rfl, rfl, ?_, ?_, ?_⟩
    · simp only [PerfMon.clear, PerfMon.getPerformanceSession, hqc, if_true]
      rfl
    · simp only [PerfMon.clear, PerfMon.getPerformanceSession, hqc, if_true]
      rfl
    · intro h
      exact absurd h (by simp [hqc])
  | false =>
    refine ⟨rfl, rfl, rfl, rfl, rfl, ?_, ?_, ?_⟩
    · simp only [PerfMon.clear, PerfMon.getPerformanceSession, hqc]
      rfl
    · simp only [PerfMon.clear, PerfMon.getPerformanceSession, hqc]
      rfl
    · intro _
      simp only [PerfMon.clear, PerfMon.getPerformanceSession, PerfMon.mk', hqc]
      rfl

def c8wCall : APICallData := ⟨"u", "GET", 1, 2, 2, 200, 0⟩

def c8wm : PerfMon :=
  { PerfMon.mk' Framework.vue "id" 5 with
      api := APIMon.init.recordAPICall c8wCall,
      hydrationStartTime := some 1 }

/-- C8 witness: a monitor without query client but with a recorded API call
and a pending hydration marker produces, after `clear()`, exactly the
snapshot of a fresh monitor with the same identity. -/
theorem c8_witness :
    c8wm.clear.getPerformanceSession c8env =
      (PerfMon.mk' Framework.vue "id" 5).getPerformanceSession c8env ∧
    (c8wm.clear.getPerformanceSession c8env).summary.apiCallCount = 0 := by
  have h := (c8_clear_resets c8wm c8env).2.2.2.2.2.2.2 rfl
  exact ⟨h, rfl⟩

/-! ### C9 — hydration end without hydration start -/

/-- C9: `markHydrationEnd` called while no hydration start is marked
returns with the state unchanged (no exception, modelled by totality), and
if no hydration record existed the subsequent snapshot's hydration field is
`null`. -/
theorem c9_hydration_end_without_start (m : PerfMon) (cc : Option ℕ) (now : ℚ)
    (env : SessionEnv) (h : m.hydrationStartTime = none) :
    m.markHydrationEnd cc now = m ∧
    (m.hydrationMetric = none →
      ((m.markHydrationEnd cc now).getPerformanceSession env).hydration = none) := by
  have h1 : m.markHydrationEnd cc now = m := by
    simp only [PerfMon.markHydrationEnd, h]
  refine ⟨h1, ?_⟩
  intro hm
  rw [h1]
  exact hm

/-- C9 witness: on a fresh monitor, `markHydrationEnd` is a no-op and the
snapshot's hydration field is `null`. -/
theorem c9_witness :
    (PerfMon.mk' Framework.other "sid" 0).markHydrationEnd none 5 =
      PerfMon.mk' Framework.other "sid" 0 ∧
    (((PerfMon.mk' Framework.other "sid" 0).markHydrationEnd none 5).getPerformanceSession
        c8env).hydration = none := by
  have h := c9_hydration_end_without_start (PerfMon.mk' Framework.other "sid" 0)
    none 5 c8env rfl
  exact ⟨h.1, h.2 rfl⟩

/-! ### C10 — clear() keeps the correlation instants -/

/-- C10: `clear()` on the API monitor empties the call log and the
pending-request map but leaves the stored paint instant and the
interaction-instant set untouched (and the query monitor's `clear()`
likewise leaves its `lcpTime` and `inpEvents`), so a call recorded right
after a `clear()` is evaluated against the instants reported before it. -/
theorem c10_clear_keeps_instants (s : APIMon) (q : QueryMon) (d : APICallData) :
    s.clear.lcpTime = s.lcpTime ∧
    s.clear.inpEvents = s.inpEvents ∧
    s.clear.apiCalls = [] ∧
    s.clear.pendingRequests = [] ∧
    q.clear.lcpTime = q.lcpTime ∧
    q.clear.inpEvents = q.inpEvents ∧
    q.clear.queryMetrics = [] ∧
    q.clear.queryExecutions = [] ∧
    (s.clear.recordAPICall d).apiCalls =
      [{ url := d.url, method := d.method, startTime := d.startTime,
         duration := d.duration, ttfb := d.ttfb, status := d.status, size := d.size,
         blockedLCP := s.checkLCPBlocking d.startTime d.duration,
         blockedINP := s.checkINPBlocking d.startTime d.duration }] :=
  ⟨rfl, rfl, rfl, rfl, rfl, rfl, rfl, rfl, rfl⟩

end PerfSpec
